import Mathlib

/-!
Verification of the Quandify Home Assistant integration
(`custom_components/quandify/sensor.py`, `config_flow.py`, and the
`config/custom_components/quandify/sensor.py` variant).

The integration's core is a poll cycle (`QuandifyDataCoordinator._async_update_data`)
that ensures a bearer token (authenticating lazily against a login endpoint),
fetches a daily water-consumption total, and retries once with a forced
re-authentication when the first fetch fails.

We embed the Python code shallowly:
  * HTTP interactions are modelled by environment records: an `AuthResponse`
    (status code plus the optional `id_token` field of the JSON body) or a
    `FetchResponse` (status code plus the shape of the consumption JSON body);
    `none` at the environment level models a network error / raised exception
    inside the `requests` call.
  * JSON floats are modelled as `ℚ`; a `totalVolume` value of JSON `null` is
    the inner `none` of an `Option (Option ℚ)`.
  * `datetime.now()` is modelled by an epoch instant `epochNow : Int` (Unix
    seconds) plus a timezone offset `tzOffset : Int` (local wall clock =
    epoch + offset, in seconds); `datetime.timestamp()` converts a local wall
    clock value back to epoch seconds by subtracting the offset.
  * The mutable coordinator fields `_token` / `_token_expires` form the
    explicit state `CoordState`; Python truthiness of a string (`if token:`)
    is `t ≠ ""` on the `some` case.
  * A Python function that returns `None` on any caught exception or non-200
    status becomes a total Lean function returning `Option`.
-/

namespace Quandify

/-- Response of the login endpoint as seen by `_authenticate`:
the HTTP status code and the result of `response.json().get("id_token")`
(`none` when the field is absent). -/
structure AuthResponse where
  status : Nat
  idToken : Option String
  deriving DecidableEq, Repr

/-- Shape of `data["aggregate"]["total"]` in the consumption response:
the `totalVolume` key is either absent (outer `none`), present with JSON
`null` (inner `none`), or present with a number. -/
structure TotalObj where
  totalVolume : Option (Option ℚ)
  deriving DecidableEq, Repr

/-- Shape of `data["aggregate"]` in the consumption response. -/
structure AggregateObj where
  total : Option TotalObj
  deriving DecidableEq, Repr

/-- Shape of the consumption-response JSON body. -/
structure ConsumptionBody where
  aggregate : Option AggregateObj
  deriving DecidableEq, Repr

/-- Response of the consumption endpoint as seen by `_get_consumption_data`. -/
structure FetchResponse where
  status : Nat
  body : ConsumptionBody
  deriving DecidableEq, Repr

/-- Query parameters of the consumption request
(`params = {"from": from_ts, "to": to_ts, "truncate": "day"}`). -/
structure FetchParams where
  fromTs : Int
  toTs : Int
  truncate : String
  deriving DecidableEq, Repr

/-- The coordinator's mutable token cache: fields `_token` and
`_token_expires` of `QuandifyDataCoordinator` (primary variant). -/
structure CoordState where
  token : Option String
  tokenExpires : Option Int
  deriving DecidableEq, Repr

/-- Environment of one poll cycle: the responses the network would deliver to
the first and second authentication call and to the first and second
consumption fetch, in order.  `none` models a network failure (an exception
inside the HTTP call). -/
structure Env where
  auth1 : Option AuthResponse
  auth2 : Option AuthResponse
  fetch1 : Option FetchResponse
  fetch2 : Option FetchResponse
  deriving DecidableEq, Repr

/-- The token `_authenticate` extracts from a login response:
on HTTP 200 it takes `data.get("id_token")` and requires Python truthiness
(`if token:`), i.e. the field present and non-empty; any other status, a
missing field, or a network failure yields `none`. -/
def authToken (env : Option AuthResponse) : Option String :=
  match env with
  | none => none
  | some r =>
    if r.status = 200 then
      match r.idToken with
      | some t => if t ≠ "" then some t else none
      | none => none
    else none

/-- `QuandifyDataCoordinator._authenticate` (primary variant), lines 124-165:
on success it caches the token and sets `_token_expires` to
`datetime.now() + timedelta(hours=23)` (82800 seconds); on any failure it
logs and returns `None`, leaving the state untouched.  `now` is the local
wall clock in seconds. -/
def authenticate (env : Option AuthResponse) (now : Int) (st : CoordState) :
    Option String × CoordState :=
  match authToken env with
  | some t => (some t, ⟨some t, some (now + 82800)⟩)
  | none => (none, st)

/-- Result of `_ensure_token`: the returned token, the coordinator state
afterwards, and how many authentication calls were made (0 or 1). -/
structure TokenResult where
  token : Option String
  state : CoordState
  authCalls : Nat
  deriving DecidableEq, Repr

/-- `QuandifyDataCoordinator._ensure_token`, lines 117-122:
`if self._token and self._token_expires and datetime.now() < self._token_expires:
return self._token`, else `return await self._authenticate()`.
Python truthiness of `self._token` is `t ≠ ""`. -/
def ensureToken (env : Option AuthResponse) (now : Int) (st : CoordState) :
    TokenResult :=
  match st.token, st.tokenExpires with
  | some t, some e =>
    if t ≠ "" ∧ now < e then ⟨some t, st, 0⟩
    else
      let a := authenticate env now st
      ⟨a.1, a.2, 1⟩
  | _, _ =>
    let a := authenticate env now st
    ⟨a.1, a.2, 1⟩

/-- The JSON-path extraction of `_get_consumption_data` (primary variant),
lines 196-205: requires `"aggregate"`, `"total"`, `"totalVolume"` keys in
turn, then `float(volume) if volume is not None else 0.0`; a missing key
yields `None`. -/
def parseVolume (b : ConsumptionBody) : Option ℚ :=
  match b.aggregate with
  | none => none
  | some agg =>
    match agg.total with
    | none => none
    | some tot =>
      match tot.totalVolume with
      | none => none
      | some none => some 0
      | some (some q) => some q

/-- `QuandifyDataCoordinator._get_consumption_data` (primary variant),
lines 167-216: sends the request with the given params; non-200 status,
network failure, or a missing key yields `None`. -/
def getConsumptionData (env : Option FetchResponse) (p : FetchParams) :
    Option ℚ :=
  match env with
  | none => none
  | some r => if r.status = 200 then parseVolume r.body else none

/-- The time window computed at the top of `_async_update_data`, lines 78-83:
`now = datetime.now()` (local wall clock), `start_of_day = now.replace(hour=0,
minute=0, second=0, microsecond=0)` (local midnight), and both converted via
`.timestamp()` (epoch seconds).  Local wall clock is `epochNow + tzOffset`;
truncating it to the day boundary and converting back subtracts the offset. -/
def computeWindow (epochNow tzOffset : Int) : Int × Int :=
  let localNow := epochNow + tzOffset
  let startOfDayLocal := 86400 * (localNow / 86400)
  (startOfDayLocal - tzOffset, epochNow)

/-- The consumption request parameters built from a time window, with the
fixed truncation unit `"day"`. -/
def mkParams (w : Int × Int) : FetchParams :=
  ⟨w.1, w.2, "day"⟩

/-- Outcome of one poll cycle: the returned reading (`none` when the cycle
raises `UpdateFailed`), the coordinator state afterwards, the number of
authentication calls and consumption-fetch calls made, and the query
parameters used for the consumption requests. -/
structure CycleResult where
  data : Option ℚ
  state : CoordState
  authCalls : Nat
  fetchCalls : Nat
  params : FetchParams
  deriving DecidableEq, Repr

/-- `QuandifyDataCoordinator._async_update_data` (primary variant),
lines 75-115: compute today's window, ensure a token (raise `UpdateFailed`
if none), fetch; on a failed fetch discard the token, ensure a token again
(one re-authentication), and if that succeeds retry the fetch exactly once;
a still-missing reading raises `UpdateFailed`. -/
def updateData (epochNow tzOffset : Int) (env : Env) (st : CoordState) :
    CycleResult :=
  let p := mkParams (computeWindow epochNow tzOffset)
  let localNow := epochNow + tzOffset
  let r1 := ensureToken env.auth1 localNow st
  match r1.token with
  | none => ⟨none, r1.state, r1.authCalls, 0, p⟩
  | some _ =>
    match getConsumptionData env.fetch1 p with
    | some v => ⟨some v, r1.state, r1.authCalls, 1, p⟩
    | none =>
      let st2 : CoordState := ⟨none, r1.state.tokenExpires⟩
      let r2 := ensureToken env.auth2 localNow st2
      match r2.token with
      | none => ⟨none, r2.state, r1.authCalls + r2.authCalls, 1, p⟩
      | some _ =>
        ⟨getConsumptionData env.fetch2 p, r2.state,
          r1.authCalls + r2.authCalls, 2, p⟩

/-- Reachable-state invariant of the coordinator: either no token is cached,
or the cached token is a non-empty string stored together with an expiry
instant.  It holds of the initial state (`_token = None`,
`_token_expires = None`) and is preserved by every poll cycle, because
`_authenticate` is the only writer of a `some` token and always stores a
non-empty token with a fresh expiry. -/
def ReachInv (st : CoordState) : Prop :=
  st.token = none ∨ ∃ t e, st.token = some t ∧ t ≠ "" ∧ st.tokenExpires = some e

/-! ## The `config/custom_components/quandify/sensor.py` variant

This older variant keeps only `self._token` (no `_token_expires` field at
all), reuses a truthy cached token unconditionally, and on a failed fetch
re-authenticates unconditionally and retries once if the new token is
truthy.  Its `_authenticate` returns `response.json().get("id_token")`
directly on HTTP 200 without checking it, and its `_get_consumption_data`
calls `float(...)` without a `None` guard, so a JSON `null` `totalVolume`
raises `TypeError`, which the surrounding `except` turns into `None`. -/

namespace ConfigVariant

/-- The coordinator state of the config variant: only `_token`. -/
structure CoordStateC where
  token : Option String
  deriving DecidableEq, Repr

/-- Python truthiness of the optional token string (`if not self._token`). -/
def tokenTruthy : Option String → Bool
  | none => false
  | some t => decide (t ≠ "")

/-- `_authenticate` of the config variant, lines 93-113: on HTTP 200 it
returns `response.json().get("id_token")` unchecked; any other status or a
network error yields `None`. -/
def authenticateC (env : Option AuthResponse) : Option String :=
  match env with
  | none => none
  | some r => if r.status = 200 then r.idToken else none

/-- JSON-path extraction of the config variant's `_get_consumption_data`,
lines 135-141: same key checks as the primary variant, but the value is
passed to `float(...)` with no `None` guard, so JSON `null` raises and the
handler returns `None`. -/
def parseVolumeC (b : ConsumptionBody) : Option ℚ :=
  match b.aggregate with
  | none => none
  | some agg =>
    match agg.total with
    | none => none
    | some tot =>
      match tot.totalVolume with
      | none => none
      | some none => none
      | some (some q) => some q

/-- `_get_consumption_data` of the config variant, lines 115-148. -/
def getConsumptionDataC (env : Option FetchResponse) (p : FetchParams) :
    Option ℚ :=
  match env with
  | none => none
  | some r => if r.status = 200 then parseVolumeC r.body else none

/-- Outcome of one poll cycle of the config variant. -/
structure CycleResultC where
  data : Option ℚ
  state : CoordStateC
  authCalls : Nat
  fetchCalls : Nat
  params : FetchParams
  deriving DecidableEq, Repr

/-- `_async_update_data` of the config variant, lines 60-91: compute the
window; if `not self._token`, authenticate (raise `UpdateFailed` when still
falsy); fetch; on a failed fetch assign `self._token = await
self._authenticate()` unconditionally and, if the new token is truthy,
retry the fetch once; a still-missing reading raises `UpdateFailed`.
No clock value is consulted for any token decision. -/
def updateDataC (epochNow tzOffset : Int) (env : Env) (st : CoordStateC) :
    CycleResultC :=
  let p := mkParams (computeWindow epochNow tzOffset)
  let step1 : Option String × Nat :=
    if tokenTruthy st.token then (st.token, 0) else (authenticateC env.auth1, 1)
  if tokenTruthy step1.1 then
    match getConsumptionDataC env.fetch1 p with
    | some v => ⟨some v, ⟨step1.1⟩, step1.2, 1, p⟩
    | none =>
      let tok2 := authenticateC env.auth2
      if tokenTruthy tok2 then
        match getConsumptionDataC env.fetch2 p with
        | some v => ⟨some v, ⟨tok2⟩, step1.2 + 1, 2, p⟩
        | none => ⟨none, ⟨tok2⟩, step1.2 + 1, 2, p⟩
      else ⟨none, ⟨tok2⟩, step1.2 + 1, 1, p⟩
  else ⟨none, ⟨step1.1⟩, step1.2, 0, p⟩

end ConfigVariant

/-! ## GUID validation (`config_flow.py`)

`is_valid_guid` applies `re.match` with the case-insensitive pattern
`^[0-9a-f]{8}-[0-9a-f]{4}-[0-9a-f]{4}-[0-9a-f]{4}-[0-9a-f]{12}$`.
In Python, `$` without `re.MULTILINE` matches at the end of the string
and also just before a single newline at the end of the string, so the
matcher below accepts a remainder of `[]` or `['\n']` after the five
hyphen-separated hex runs. -/

/-- The character class `[0-9a-f]` under `re.IGNORECASE`. -/
def isHexDigit (c : Char) : Bool :=
  (48 ≤ c.toNat && c.toNat ≤ 57) ||
  (97 ≤ c.toNat && c.toNat ≤ 102) ||
  (65 ≤ c.toNat && c.toNat ≤ 70)

/-- Consume exactly `n` hex digits (`[0-9a-f]{n}`), returning the remaining
characters, or `none` when the input does not start with `n` hex digits. -/
def hexRun : Nat → List Char → Option (List Char)
  | 0, cs => some cs
  | _ + 1, [] => none
  | n + 1, c :: cs => if isHexDigit c then hexRun n cs else none

/-- The anchored GUID pattern `^{8}-{4}-{4}-{4}-{12}$` applied to a character
list, with Python's `$` semantics (end of string, or just before a trailing
newline). -/
def guidMatch (cs : List Char) : Bool :=
  match hexRun 8 cs with
  | some ('-' :: r1) =>
    match hexRun 4 r1 with
    | some ('-' :: r2) =>
      match hexRun 4 r2 with
      | some ('-' :: r3) =>
        match hexRun 4 r3 with
        | some ('-' :: r4) =>
          match hexRun 12 r4 with
          | some [] => true
          | some ['\n'] => true
          | _ => false
        | _ => false
      | _ => false
    | _ => false
  | _ => false

/-- `is_valid_guid` of `config_flow.py`, lines 31-37. -/
def is_valid_guid (s : String) : Bool :=
  guidMatch s.data

/-! ## Helper lemmas -/

theorem authToken_ne_empty (env : Option AuthResponse) (t : String)
    (h : authToken env = some t) : t ≠ "" := by
  unfold authToken at h
  cases env with
  | none => exact absurd h (by simp)
  | some r =>
    by_cases hs : r.status = 200
    · simp only [hs, if_true] at h
      cases hr : r.idToken with
      | none => rw [hr] at h; exact absurd h (by simp)
      | some u =>
        rw [hr] at h
        by_cases hu : u = ""
        · simp [hu] at h
        · simp only [ne_eq, hu, not_false_iff, if_true, Option.some.injEq] at h
          rw [← h]; exact hu
    · simp [hs] at h

theorem authenticate_inv (env : Option AuthResponse) (now : Int)
    (st : CoordState) (hst : ReachInv st) :
    ReachInv (authenticate env now st).2 := by
  unfold authenticate
  cases h : authToken env with
  | none => exact hst
  | some t =>
    exact Or.inr ⟨t, now + 82800, rfl, authToken_ne_empty env t h, rfl⟩

theorem ensureToken_inv (env : Option AuthResponse) (now : Int)
    (st : CoordState) (hst : ReachInv st) :
    ReachInv (ensureToken env now st).state := by
  unfold ensureToken
  cases ht : st.token with
  | none => exact authenticate_inv env now st hst
  | some t =>
    cases he : st.tokenExpires with
    | none => exact authenticate_inv env now st hst
    | some e =>
      by_cases hc : t ≠ "" ∧ now < e
      · simpa [hc] using hst
      · simpa [hc] using authenticate_inv env now st hst

theorem updateData_inv (epochNow tzOffset : Int) (env : Env)
    (st : CoordState) (hst : ReachInv st) :
    ReachInv (updateData epochNow tzOffset env st).state := by
  simp only [updateData]
  split
  · exact ensureToken_inv env.auth1 (epochNow + tzOffset) st hst
  · split
    · exact ensureToken_inv env.auth1 (epochNow + tzOffset) st hst
    · split
      · exact ensureToken_inv env.auth2 (epochNow + tzOffset) _ (Or.inl rfl)
      · exact ensureToken_inv env.auth2 (epochNow + tzOffset) _ (Or.inl rfl)

theorem authenticate_fst (e : Option AuthResponse) (now : Int)
    (st : CoordState) : (authenticate e now st).1 = authToken e := by
  unfold authenticate
  cases h : authToken e with
  | none => rfl
  | some t => rfl

theorem authToken_some (e : Option AuthResponse) (t : String)
    (h : authToken e = some t) :
    ∃ r, e = some r ∧ r.status = 200 ∧ r.idToken = some t := by
  unfold authToken at h
  cases e with
  | none => simp at h
  | some r =>
    by_cases hs : r.status = 200
    · simp only [hs, if_true] at h
      cases hr : r.idToken with
      | none => rw [hr] at h; simp at h
      | some u =>
        rw [hr] at h
        by_cases hu : u = ""
        · simp [hu] at h
        · simp only [ne_eq, hu, not_false_iff, if_true, Option.some.injEq] at h
          exact ⟨r, rfl, hs, by rw [hr, h]⟩
    · simp [hs] at h

theorem ensureToken_noToken (e : Option AuthResponse) (now : Int)
    (ex : Option Int) :
    ensureToken e now ⟨none, ex⟩ =
      ⟨(authenticate e now ⟨none, ex⟩).1, (authenticate e now ⟨none, ex⟩).2, 1⟩ :=
  rfl

theorem ensureToken_authCalls_le (e : Option AuthResponse) (now : Int)
    (st : CoordState) : (ensureToken e now st).authCalls ≤ 1 := by
  obtain ⟨tok, texp⟩ := st
  cases tok with
  | none => exact le_refl 1
  | some t =>
    cases texp with
    | none => exact le_refl 1
    | some ex =>
      simp only [ensureToken]
      split
      · exact Nat.zero_le 1
      · exact le_refl 1

theorem ensureToken_provenance (e : Option AuthResponse) (now : Int)
    (st : CoordState) (t : String)
    (h : (ensureToken e now st).token = some t) :
    st.token = some t ∨ ∃ r, e = some r ∧ r.status = 200 ∧ r.idToken = some t := by
  obtain ⟨tok, texp⟩ := st
  cases tok with
  | none =>
    simp only [ensureToken] at h
    rw [authenticate_fst] at h
    exact Or.inr (authToken_some e t h)
  | some u =>
    cases texp with
    | none =>
      simp only [ensureToken] at h
      rw [authenticate_fst] at h
      exact Or.inr (authToken_some e t h)
    | some ex =>
      simp only [ensureToken] at h
      split at h
      · exact Or.inl h
      · rw [authenticate_fst] at h
        exact Or.inr (authToken_some e t h)

theorem getConsumptionData_some (fe : Option FetchResponse) (p : FetchParams)
    (q : ℚ) (h : getConsumptionData fe p = some q) :
    ∃ r, fe = some r ∧ r.status = 200 ∧ parseVolume r.body = some q := by
  cases fe with
  | none => simp [getConsumptionData] at h
  | some r =>
    simp only [getConsumptionData] at h
    by_cases hs : r.status = 200
    · rw [if_pos hs] at h
      exact ⟨r, rfl, hs, h⟩
    · rw [if_neg hs] at h
      simp at h

theorem updateData_params (epochNow tzOffset : Int) (env : Env)
    (st : CoordState) :
    (updateData epochNow tzOffset env st).params =
      mkParams (computeWindow epochNow tzOffset) := by
  simp only [updateData]
  split
  · rfl
  · split
    · rfl
    · split
      · rfl
      · rfl

theorem hexRun_spec (n : Nat) : ∀ cs rest : List Char,
    hexRun n cs = some rest →
    ∃ pre, cs = pre ++ rest ∧ pre.length = n ∧ ∀ c ∈ pre, isHexDigit c = true := by
  induction n with
  | zero =>
    intro cs rest h
    simp only [hexRun, Option.some.injEq] at h
    exact ⟨[], by simp [h], rfl, by simp⟩
  | succ m ih =>
    intro cs rest h
    cases cs with
    | nil => simp [hexRun] at h
    | cons c cs0 =>
      simp only [hexRun] at h
      by_cases hc : isHexDigit c
      · simp only [hc, if_true] at h
        obtain ⟨pre, heq, hlen, hall⟩ := ih cs0 rest h
        refine ⟨c :: pre, by simp [heq], by simp [hlen], ?_⟩
        intro d hd
        rcases List.mem_cons.mp hd with h1 | h2
        · rw [h1]; exact hc
        · exact hall d h2
      · simp [hc] at h

theorem count_hyphen_of_hex (l : List Char)
    (h : ∀ c ∈ l, isHexDigit c = true) : l.count '-' = 0 := by
  rw [List.count_eq_zero]
  intro hmem
  exact absurd (h '-' hmem) (by decide)

theorem guidMatch_spec (cs : List Char) (h : guidMatch cs = true) :
    cs.count '-' = 4 ∧
      (cs.length = 36 ∨ (cs.length = 37 ∧ ∃ p, cs = p ++ ['\n'])) := by
  unfold guidMatch at h
  split at h <;> try exact absurd h Bool.false_ne_true
  rename_i r1 h8
  split at h <;> try exact absurd h Bool.false_ne_true
  rename_i r2 h4a
  split at h <;> try exact absurd h Bool.false_ne_true
  rename_i r3 h4b
  split at h <;> try exact absurd h Bool.false_ne_true
  rename_i r4 h4c
  split at h <;> try exact absurd h Bool.false_ne_true
  case _ h12 =>
    obtain ⟨p1, e1, l1, x1⟩ := hexRun_spec 8 _ _ h8
    obtain ⟨p2, e2, l2, x2⟩ := hexRun_spec 4 _ _ h4a
    obtain ⟨p3, e3, l3, x3⟩ := hexRun_spec 4 _ _ h4b
    obtain ⟨p4, e4, l4, x4⟩ := hexRun_spec 4 _ _ h4c
    obtain ⟨p5, e5, l5, x5⟩ := hexRun_spec 12 _ _ h12
    subst e1 e2 e3 e4 e5
    constructor
    · simp [List.count_append, List.count_cons,
        count_hyphen_of_hex p1 x1, count_hyphen_of_hex p2 x2,
        count_hyphen_of_hex p3 x3, count_hyphen_of_hex p4 x4,
        count_hyphen_of_hex p5 x5]
    · left
      simp [List.length_append, l1, l2, l3, l4, l5]
  case _ h12 =>
    obtain ⟨p1, e1, l1, x1⟩ := hexRun_spec 8 _ _ h8
    obtain ⟨p2, e2, l2, x2⟩ := hexRun_spec 4 _ _ h4a
    obtain ⟨p3, e3, l3, x3⟩ := hexRun_spec 4 _ _ h4b
    obtain ⟨p4, e4, l4, x4⟩ := hexRun_spec 4 _ _ h4c
    obtain ⟨p5, e5, l5, x5⟩ := hexRun_spec 12 _ _ h12
    subst e1 e2 e3 e4 e5
    constructor
    · simp [List.count_append, List.count_cons,
        count_hyphen_of_hex p1 x1, count_hyphen_of_hex p2 x2,
        count_hyphen_of_hex p3 x3, count_hyphen_of_hex p4 x4,
        count_hyphen_of_hex p5 x5]
    · right
      constructor
      · simp [List.length_append, l1, l2, l3, l4, l5]
      · exact ⟨p1 ++ '-' :: (p2 ++ '-' :: (p3 ++ '-' :: (p4 ++ '-' :: p5))),
          by simp [List.append_assoc]⟩

/-! ## Claim theorems -/

/-- Claim C3: for every 200 login response whose JSON body contains a
non-empty `id_token` field, the Authenticator returns exactly that token
string, caches it, and sets the estimated expiry to the fixed 23-hour
offset (82800 seconds) from the local clock — an instant in the future.
No server-provided expiry exists to be read (an `AuthResponse` carries
only the status and the `id_token` field). -/
theorem C3_auth_success (now : Int) (st : CoordState) (t : String)
    (ht : t ≠ "") :
    authenticate (some ⟨200, some t⟩) now st =
      (some t, ⟨some t, some (now + 82800)⟩) ∧
    now < now + 82800 := by
  constructor
  · unfold authenticate authToken
    simp [ht]
  · omega

theorem C3_auth_success_witness :
    authenticate (some ⟨200, some "T1"⟩) 1700000000 ⟨none, none⟩ =
      (some "T1", ⟨some "T1", some (1700000000 + 82800)⟩) ∧
    (1700000000 : Int) < 1700000000 + 82800 :=
  C3_auth_success 1700000000 ⟨none, none⟩ "T1" (by decide)

/-- Claim C4: every Authenticator failure (network error, any non-200
status including 401, or a 200 response missing the `id_token` field) and
every Fetcher failure (network error, non-200 status, or a body missing the
`aggregate`, `total`, or `totalVolume` key) yields an absent result
(`none`).  Both embeddings are total Lean functions, which reflects that
the Python methods catch every exception at their own boundary. -/
theorem C4_failures_swallowed (now : Int) (st : CoordState) (p : FetchParams)
    (ae : Option AuthResponse) (fe : Option FetchResponse)
    (ha : ae = none ∨ ∃ r, ae = some r ∧ (r.status ≠ 200 ∨ r.idToken = none))
    (hf : fe = none ∨ ∃ r, fe = some r ∧
      (r.status ≠ 200 ∨ r.body.aggregate = none ∨
        ∃ a, r.body.aggregate = some a ∧ (a.total = none ∨
          ∃ tt, a.total = some tt ∧ tt.totalVolume = none))) :
    (authenticate ae now st).1 = none ∧ getConsumptionData fe p = none := by
  constructor
  · rw [authenticate_fst]
    rcases ha with h0 | ⟨r, hr, hcase⟩
    · rw [h0]; rfl
    · subst hr
      rcases hcase with hs | hid
      · simp [authToken, hs]
      · simp [authToken, hid]
  · rcases hf with h0 | ⟨r, hr, hcase⟩
    · rw [h0]; rfl
    · subst hr
      rcases hcase with hs | hagg | ⟨a, hagg, hcase2⟩
      · simp [getConsumptionData, hs]
      · simp [getConsumptionData, parseVolume, hagg]
      · rcases hcase2 with htot | ⟨tt, htot, hvol⟩
        · by_cases hs : r.status = 200 <;>
            simp [getConsumptionData, parseVolume, hagg, htot, hs]
        · by_cases hs : r.status = 200 <;>
            simp [getConsumptionData, parseVolume, hagg, htot, hvol, hs]

theorem C4_failures_swallowed_witness :
    (authenticate (some ⟨401, none⟩) 0 ⟨none, none⟩).1 = none ∧
    getConsumptionData (some ⟨200, ⟨none⟩⟩) ⟨0, 0, "day"⟩ = none :=
  C4_failures_swallowed 0 ⟨none, none⟩ ⟨0, 0, "day"⟩
    (some ⟨401, none⟩) (some ⟨200, ⟨none⟩⟩)
    (Or.inr ⟨⟨401, none⟩, rfl, Or.inl (by decide)⟩)
    (Or.inr ⟨⟨200, ⟨none⟩⟩, rfl, Or.inr (Or.inl rfl)⟩)

/-- Claim C5: for every 200 consumption response, if the body contains the
nested path `aggregate.total.totalVolume` with a numeric value `q`, the
Fetcher returns exactly `q` (so `12.5` yields `12.5`); if the `aggregate`
key is missing, the Fetcher returns no result — not an exception and not
zero. -/
theorem C5_parse_volume (p : FetchParams) (q : ℚ) :
    getConsumptionData
      (some ⟨200, { aggregate := some { total := some { totalVolume := some (some q) } } }⟩)
      p = some q ∧
    getConsumptionData (some ⟨200, { aggregate := none }⟩) p = none := by
  exact ⟨rfl, rfl⟩

/-- Claim C9: for every 200 consumption response whose body contains the
full path `aggregate.total.totalVolume` with value JSON `null`, the primary
variant's Fetcher returns the present reading `0.0`
(`float(volume) if volume is not None else 0.0`), not an absent result. -/
theorem C9_null_volume_is_zero (p : FetchParams) :
    getConsumptionData
      (some ⟨200, { aggregate := some { total := some { totalVolume := some none } } }⟩)
      p = some 0 :=
  rfl

/-- Claim C6 (counterexample): the claim says the validator rejects any
string that does not have exactly 36 characters, but Python's `$` (without
`re.MULTILINE`) also matches just before a single trailing newline, so the
37-character string consisting of a valid GUID followed by a newline is
accepted. -/
theorem C6_guid_counterexample :
    is_valid_guid "12345678-1234-5678-9012-123456789012\n" = true ∧
    ¬ ("12345678-1234-5678-9012-123456789012\n" : String).data.length = 36 := by
  exact ⟨rfl, by decide⟩

/-- Claim C6 (amended): the GUID validator accepts
`"12345678-1234-5678-9012-123456789012"` and rejects `"not-a-guid"`; every
accepted string has exactly 4 hyphens, and has exactly 36 characters unless
it is a 36-character GUID followed by a single trailing newline (37
characters), which Python's `$` anchor also accepts. -/
theorem C6_guid_amended :
    is_valid_guid "12345678-1234-5678-9012-123456789012" = true ∧
    is_valid_guid "not-a-guid" = false ∧
    ∀ s : String, is_valid_guid s = true →
      s.data.count '-' = 4 ∧
      (s.data.length = 36 ∨
        (s.data.length = 37 ∧ ∃ p, s.data = p ++ ['\n'])) := by
  refine ⟨rfl, rfl, ?_⟩
  intro s hs
  exact guidMatch_spec s.data hs

theorem C6_guid_amended_witness :
    ("12345678-1234-5678-9012-123456789012" : String).data.count '-' = 4 ∧
    (("12345678-1234-5678-9012-123456789012" : String).data.length = 36 ∨
      (("12345678-1234-5678-9012-123456789012" : String).data.length = 37 ∧
        ∃ p, ("12345678-1234-5678-9012-123456789012" : String).data = p ++ ['\n'])) :=
  C6_guid_amended.2.2 "12345678-1234-5678-9012-123456789012" rfl

/-- Claim C7: when a token is cached together with an expiry instant and the
local clock is earlier than that instant, `_ensure_token` returns the cached
token, makes no authentication call, and leaves the state unchanged;
conversely an authentication call happens only when the cached token is
absent or the local clock comparison judges it expired.  The hypothesis
`ReachInv st` restricts to reachable coordinator states (cached tokens are
non-empty and always stored together with an expiry; see `updateData_inv`). -/
theorem C7_lazy_refresh (e : Option AuthResponse) (now : Int)
    (st : CoordState) (hinv : ReachInv st) :
    (∀ t ex, st.token = some t → st.tokenExpires = some ex → now < ex →
        ensureToken e now st = ⟨some t, st, 0⟩) ∧
    ((ensureToken e now st).authCalls = 1 →
        st.token = none ∨ ∃ ex, st.tokenExpires = some ex ∧ ex ≤ now) := by
  constructor
  · intro t ex ht hex hlt
    have hne : t ≠ "" := by
      rcases hinv with h0 | ⟨u, ex2, hu, hune, _⟩
      · rw [h0] at ht; exact absurd ht (by simp)
      · rw [hu] at ht
        rw [Option.some.inj ht] at hune
        exact hune
    obtain ⟨tok, texp⟩ := st
    simp only at ht hex
    subst ht hex
    simp [ensureToken, hne, hlt]
  · intro hcalls
    rcases hinv with h0 | ⟨u, ex2, hu, hune, hex2⟩
    · exact Or.inl h0
    · right
      refine ⟨ex2, hex2, ?_⟩
      by_contra hle
      push_neg at hle
      have heq : ensureToken e now st = ⟨some u, st, 0⟩ := by
        obtain ⟨tok, texp⟩ := st
        simp only at hu hex2
        subst hu hex2
        simp [ensureToken, hune, hle]
      rw [heq] at hcalls
      simp at hcalls

theorem C7_lazy_refresh_witness :
    ensureToken none 50 ⟨some "tok", some 100⟩ =
      ⟨some "tok", ⟨some "tok", some 100⟩, 0⟩ :=
  (C7_lazy_refresh none 50 ⟨some "tok", some 100⟩
      (Or.inr ⟨"tok", 100, rfl, by decide, rfl⟩)).1 "tok" 100 rfl rfl (by decide)

/-- Claim C2: a poll cycle produces a reading only when a token was held at
fetch time — the token returned by `_ensure_token`, which is either the
cached token or one extracted from an HTTP 200 login response — and the
reading itself comes from an HTTP 200 consumption response of this very
cycle (never a stale or default value); when no token can be obtained the
cycle yields no reading (`UpdateFailed`). -/
theorem C2_reading_validity (epochNow tzOffset : Int) (env : Env)
    (st : CoordState) :
    ((ensureToken env.auth1 (epochNow + tzOffset) st).token = none →
        (updateData epochNow tzOffset env st).data = none) ∧
    (∀ t, (ensureToken env.auth1 (epochNow + tzOffset) st).token = some t →
        st.token = some t ∨
          ∃ r, env.auth1 = some r ∧ r.status = 200 ∧ r.idToken = some t) ∧
    (∀ v, (updateData epochNow tzOffset env st).data = some v →
        (ensureToken env.auth1 (epochNow + tzOffset) st).token ≠ none ∧
        ∃ resp, (env.fetch1 = some resp ∨ env.fetch2 = some resp) ∧
          resp.status = 200 ∧ parseVolume resp.body = some v) := by
  refine ⟨?_, ?_, ?_⟩
  · intro h
    simp [updateData, h]
  · intro t h
    exact ensureToken_provenance env.auth1 (epochNow + tzOffset) st t h
  · intro v hv
    cases h1 : (ensureToken env.auth1 (epochNow + tzOffset) st).token with
    | none => simp only [updateData, h1] at hv; simp at hv
    | some t =>
      refine ⟨by simp [h1], ?_⟩
      cases h2 : getConsumptionData env.fetch1
          (mkParams (computeWindow epochNow tzOffset)) with
      | some w =>
        simp only [updateData, h1, h2] at hv
        obtain ⟨resp, hresp, hst, hpv⟩ :=
          getConsumptionData_some env.fetch1
            (mkParams (computeWindow epochNow tzOffset)) w h2
        rw [Option.some.inj hv] at hpv
        exact ⟨resp, Or.inl hresp, hst, hpv⟩
      | none =>
        cases h3 : (ensureToken env.auth2 (epochNow + tzOffset)
            ⟨none, (ensureToken env.auth1 (epochNow + tzOffset) st).state.tokenExpires⟩).token with
        | none =>
          simp only [updateData, h1, h2, h3] at hv
          simp at hv
        | some u =>
          simp only [updateData, h1, h2, h3] at hv
          obtain ⟨resp, hresp, hst, hpv⟩ :=
            getConsumptionData_some env.fetch2
              (mkParams (computeWindow epochNow tzOffset)) v hv
          exact ⟨resp, Or.inr hresp, hst, hpv⟩

theorem C2_reading_validity_witness :
    (updateData 0 0 ⟨none, none, none, none⟩ ⟨none, none⟩).data = none :=
  (C2_reading_validity 0 0 ⟨none, none, none, none⟩ ⟨none, none⟩).1 rfl

/-- Claim C1 (counterexample): the claim says a cycle whose first fetch
fails performs exactly one retry fetch before reporting failure, but when
the forced re-authentication itself fails the retry fetch never happens:
with an empty cache, a 200 login, a 500 response to the first fetch, and a
network failure on re-authentication, the cycle reports failure after 2
authentication calls and only 1 fetch call. -/
theorem C1_retry_counterexample :
    getConsumptionData
        (⟨some ⟨200, some "T"⟩, none, some ⟨500, ⟨none⟩⟩, none⟩ : Env).fetch1
        (mkParams (computeWindow 0 0)) = none ∧
    (updateData 0 0 ⟨some ⟨200, some "T"⟩, none, some ⟨500, ⟨none⟩⟩, none⟩
        ⟨none, none⟩).data = none ∧
    (updateData 0 0 ⟨some ⟨200, some "T"⟩, none, some ⟨500, ⟨none⟩⟩, none⟩
        ⟨none, none⟩).authCalls = 2 ∧
    (updateData 0 0 ⟨some ⟨200, some "T"⟩, none, some ⟨500, ⟨none⟩⟩, none⟩
        ⟨none, none⟩).fetchCalls = 1 := by
  exact ⟨rfl, rfl, rfl, rfl⟩

/-- Claim C1 (amended): in every poll cycle whose first fetch attempt fails,
exactly one re-authentication occurs (after discarding the cached token) and
at most one retry fetch — exactly one when the re-authentication succeeds,
none when it fails — before the cycle reports failure; in the worst case the
cycle makes exactly 2 authentication calls and 2 fetch calls, and the
cycle's outcome is the retry fetch's result (failure is reported when it is
absent), with no further retries. -/
theorem C1_retry_amended (epochNow tzOffset : Int) (env : Env)
    (st : CoordState) (t : String)
    (h1 : (ensureToken env.auth1 (epochNow + tzOffset) st).token = some t)
    (h2 : getConsumptionData env.fetch1
        (mkParams (computeWindow epochNow tzOffset)) = none) :
    (updateData epochNow tzOffset env st).authCalls =
        (ensureToken env.auth1 (epochNow + tzOffset) st).authCalls + 1 ∧
    (updateData epochNow tzOffset env st).authCalls ≤ 2 ∧
    (updateData epochNow tzOffset env st).fetchCalls ≤ 2 ∧
    (authToken env.auth2 ≠ none →
        (updateData epochNow tzOffset env st).fetchCalls = 2 ∧
        (updateData epochNow tzOffset env st).data =
          getConsumptionData env.fetch2
            (mkParams (computeWindow epochNow tzOffset))) ∧
    (authToken env.auth2 = none →
        (updateData epochNow tzOffset env st).fetchCalls = 1 ∧
        (updateData epochNow tzOffset env st).data = none) := by
  have hle := ensureToken_authCalls_le env.auth1 (epochNow + tzOffset) st
  have h3 : (ensureToken env.auth2 (epochNow + tzOffset)
      ⟨none, (ensureToken env.auth1 (epochNow + tzOffset) st).state.tokenExpires⟩).token =
      authToken env.auth2 := by
    rw [ensureToken_noToken]
    exact authenticate_fst env.auth2 (epochNow + tzOffset) _
  have h4 : (ensureToken env.auth2 (epochNow + tzOffset)
      ⟨none, (ensureToken env.auth1 (epochNow + tzOffset) st).state.tokenExpires⟩).authCalls = 1 := by
    rw [ensureToken_noToken]
  cases hA : authToken env.auth2 with
  | none =>
    rw [hA] at h3
    have hupd : updateData epochNow tzOffset env st =
        ⟨none,
          (ensureToken env.auth2 (epochNow + tzOffset)
            ⟨none, (ensureToken env.auth1 (epochNow + tzOffset) st).state.tokenExpires⟩).state,
          (ensureToken env.auth1 (epochNow + tzOffset) st).authCalls + 1, 1,
          mkParams (computeWindow epochNow tzOffset)⟩ := by
      simp only [updateData, h1, h2, h3, h4]
    rw [hupd]
    dsimp only
    refine ⟨rfl, by omega, by omega, ?_, ?_⟩
    · intro hcon
      exact absurd rfl hcon
    · intro _
      exact ⟨rfl, rfl⟩
  | some u =>
    rw [hA] at h3
    have hupd : updateData epochNow tzOffset env st =
        ⟨getConsumptionData env.fetch2 (mkParams (computeWindow epochNow tzOffset)),
          (ensureToken env.auth2 (epochNow + tzOffset)
            ⟨none, (ensureToken env.auth1 (epochNow + tzOffset) st).state.tokenExpires⟩).state,
          (ensureToken env.auth1 (epochNow + tzOffset) st).authCalls + 1, 2,
          mkParams (computeWindow epochNow tzOffset)⟩ := by
      simp only [updateData, h1, h2, h3, h4]
    rw [hupd]
    dsimp only
    refine ⟨rfl, by omega, by omega, ?_, ?_⟩
    · intro _
      exact ⟨rfl, rfl⟩
    · intro hcon
      exact absurd hcon (by simp)

theorem C1_retry_amended_witness :
    (updateData 0 0
        ⟨some ⟨200, some "T"⟩, some ⟨200, some "U"⟩, some ⟨500, ⟨none⟩⟩,
          some ⟨200, { aggregate := some { total := some { totalVolume := some (some 7) } } }⟩⟩
        ⟨none, none⟩).fetchCalls = 2 ∧
    (updateData 0 0
        ⟨some ⟨200, some "T"⟩, some ⟨200, some "U"⟩, some ⟨500, ⟨none⟩⟩,
          some ⟨200, { aggregate := some { total := some { totalVolume := some (some 7) } } }⟩⟩
        ⟨none, none⟩).data =
      getConsumptionData
        (⟨some ⟨200, some "T"⟩, some ⟨200, some "U"⟩, some ⟨500, ⟨none⟩⟩,
          some ⟨200, { aggregate := some { total := some { totalVolume := some (some 7) } } }⟩⟩ : Env).fetch2
        (mkParams (computeWindow 0 0)) :=
  (C1_retry_amended 0 0
      ⟨some ⟨200, some "T"⟩, some ⟨200, some "U"⟩, some ⟨500, ⟨none⟩⟩,
        some ⟨200, { aggregate := some { total := some { totalVolume := some (some 7) } } }⟩⟩
      ⟨none, none⟩ "T" rfl rfl).2.2.2.1 (by decide)

/-- Claim C8 (counterexample): the claim says `from` is the Unix-second
timestamp of midnight UTC, but the code computes midnight of the current
*local* day (`datetime.now()` and `.replace(hour=0, ...)` operate on the
local clock): at epoch instant 1700000000 with a +3600 s timezone offset
the computed `from` is 1699916400 while midnight UTC of that instant is
1699920000. -/
theorem C8_window_counterexample :
    (mkParams (computeWindow 1700000000 3600)).fromTs = 1699916400 ∧
    86400 * ((1700000000 : Int) / 86400) = 1699920000 ∧
    (mkParams (computeWindow 1700000000 3600)).fromTs ≠
      86400 * ((1700000000 : Int) / 86400) := by
  exact ⟨by decide, by decide, by decide⟩

/-- Claim C8 (amended): every poll cycle sends the consumption request with
the fixed truncation unit `"day"`, `to` = the Unix-second timestamp of the
current instant, and `from` = the Unix-second timestamp of midnight of the
current *local* day (equal to midnight UTC exactly when the timezone offset
is zero): `from` shifted by the timezone offset is a whole number of days,
and the current instant lies in the 24-hour window starting at `from`. -/
theorem C8_window_amended (epochNow tzOffset : Int) (env : Env)
    (st : CoordState) :
    (updateData epochNow tzOffset env st).params =
        mkParams (computeWindow epochNow tzOffset) ∧
    (mkParams (computeWindow epochNow tzOffset)).truncate = "day" ∧
    (mkParams (computeWindow epochNow tzOffset)).toTs = epochNow ∧
    (∃ k, (mkParams (computeWindow epochNow tzOffset)).fromTs + tzOffset =
        86400 * k) ∧
    (mkParams (computeWindow epochNow tzOffset)).fromTs ≤ epochNow ∧
    epochNow < (mkParams (computeWindow epochNow tzOffset)).fromTs + 86400 := by
  refine ⟨updateData_params epochNow tzOffset env st, rfl, rfl,
    ⟨(epochNow + tzOffset) / 86400, ?_⟩, ?_, ?_⟩ <;>
  · simp only [mkParams, computeWindow]
    omega

theorem getConsumptionDataC_params (fe : Option FetchResponse)
    (p p2 : FetchParams) :
    ConfigVariant.getConsumptionDataC fe p =
      ConfigVariant.getConsumptionDataC fe p2 := by
  cases fe <;> rfl

/-- Claim C10: in the `config` variant the coordinator state holds only the
token (`CoordStateC` has no expiry field): a cached truthy token is reused
unconditionally — a successful first fetch completes the cycle with zero
authentication calls and the state unchanged; an authentication call can
occur only when the first fetch failed; and no clock comparison is involved:
every component of the cycle outcome except the request parameters is
independent of the clock inputs. -/
theorem C10_config_no_expiry (env : Env) (st : ConfigVariant.CoordStateC)
    (h : ConfigVariant.tokenTruthy st.token = true) :
    (∀ (epochNow tzOffset : Int) (v : ℚ),
        ConfigVariant.getConsumptionDataC env.fetch1
            (mkParams (computeWindow epochNow tzOffset)) = some v →
        ConfigVariant.updateDataC epochNow tzOffset env st =
          ⟨some v, st, 0, 1, mkParams (computeWindow epochNow tzOffset)⟩) ∧
    (∀ epochNow tzOffset : Int,
        (ConfigVariant.updateDataC epochNow tzOffset env st).authCalls ≠ 0 →
        ConfigVariant.getConsumptionDataC env.fetch1
            (mkParams (computeWindow epochNow tzOffset)) = none) ∧
    (∀ n1 o1 n2 o2 : Int,
        (ConfigVariant.updateDataC n1 o1 env st).data =
          (ConfigVariant.updateDataC n2 o2 env st).data ∧
        (ConfigVariant.updateDataC n1 o1 env st).state =
          (ConfigVariant.updateDataC n2 o2 env st).state ∧
        (ConfigVariant.updateDataC n1 o1 env st).authCalls =
          (ConfigVariant.updateDataC n2 o2 env st).authCalls ∧
        (ConfigVariant.updateDataC n1 o1 env st).fetchCalls =
          (ConfigVariant.updateDataC n2 o2 env st).fetchCalls) := by
  have key : ∀ (n o : Int) (v : ℚ),
      ConfigVariant.getConsumptionDataC env.fetch1
          (mkParams (computeWindow n o)) = some v →
      ConfigVariant.updateDataC n o env st =
        ⟨some v, st, 0, 1, mkParams (computeWindow n o)⟩ := by
    intro n o v hv
    simp only [ConfigVariant.updateDataC, h, if_true, hv]
  refine ⟨key, ?_, ?_⟩
  · intro n o hcall
    cases hx : ConfigVariant.getConsumptionDataC env.fetch1
        (mkParams (computeWindow n o)) with
    | none => rfl
    | some v =>
      rw [key n o v hx] at hcall
      exact absurd rfl hcall
  · intro n1 o1 n2 o2
    simp only [ConfigVariant.updateDataC, h, if_true]
    rw [getConsumptionDataC_params env.fetch1 (mkParams (computeWindow n1 o1))
        (mkParams (computeWindow n2 o2)),
      getConsumptionDataC_params env.fetch2 (mkParams (computeWindow n1 o1))
        (mkParams (computeWindow n2 o2))]
    cases hx : ConfigVariant.getConsumptionDataC env.fetch1
        (mkParams (computeWindow n2 o2)) with
    | some v => exact ⟨rfl, rfl, rfl, rfl⟩
    | none =>
      by_cases ht2 :
          ConfigVariant.tokenTruthy (ConfigVariant.authenticateC env.auth2) = true
      · simp only [ht2, if_true]
        cases hy : ConfigVariant.getConsumptionDataC env.fetch2
            (mkParams (computeWindow n2 o2)) with
        | some w => exact ⟨rfl, rfl, rfl, rfl⟩
        | none => exact ⟨rfl, rfl, rfl, rfl⟩
      · simp only [if_neg ht2]
        refine ⟨?_, ?_, ?_, ?_⟩ <;> first | rfl | trivial

theorem C10_config_no_expiry_witness :
    ConfigVariant.updateDataC 0 0
        ⟨none, none,
          some ⟨200, { aggregate := some { total := some { totalVolume := some (some 5) } } }⟩,
          none⟩
        ⟨some "T"⟩ =
      ⟨some 5, ⟨some "T"⟩, 0, 1, mkParams (computeWindow 0 0)⟩ :=
  (C10_config_no_expiry
      ⟨none, none,
        some ⟨200, { aggregate := some { total := some { totalVolume := some (some 5) } } }⟩,
        none⟩
      ⟨some "T"⟩ (by decide)).1 0 0 5 rfl

end Quandify
